import Mathlib

/-!
Verification of the saspy procedure-call construction and validation layer.

The procedure catalog (per-procedure required/legal statement sets) is
embedded from `src/saspy/sasstat.py`.  The shared call builder
(`SASProcCommons._run_proc` together with `_makeProcCallMacro`) is not part
of the provided sources, so it is modelled from the specification's
validation and rendering algorithm.  The configuration profiles are
embedded from `src/saspy/sascfg.py`.
-/

/-- A statement value supplied by the caller: a scalar string, a sequence of
strings, or a nested mapping of sub-options (the three value shapes the data
model admits for a CallRequest). -/
inductive StmtValue where
  | str : String → StmtValue
  | seq : List String → StmtValue
  | map : List (String × String) → StmtValue
deriving DecidableEq, Repr

/-- Validation conditions raised by the call builder before submission. -/
inductive ProcError where
  | MissingRequiredStatement : List String → ProcError
  | UnknownStatement : List String → ProcError
deriving DecidableEq, Repr

/-- A caller's keyword arguments: an ordered mapping from statement name to
value, as the CallRequest data model prescribes. -/
def Kwargs : Type := List (String × StmtValue)

/-- The statement-name keys actually supplied by the caller. -/
def suppliedKeys (kwargs : List (String × StmtValue)) : List String :=
  kwargs.map Prod.fst

/-- The required names the caller omitted, in catalog order. -/
def missingKeys (required keys : List String) : List String :=
  required.filter (fun r => !(keys.contains r))

/-- The supplied names that are outside the legal set, in supplied order. -/
def unknownKeys (keys legal : List String) : List String :=
  keys.filter (fun k => !(legal.contains k))

/-- Look up a statement key in the ordered keyword mapping. -/
def lookupKw (kwargs : List (String × StmtValue)) (k : String) : Option StmtValue :=
  (kwargs.find? (fun kv => kv.1 == k)).map Prod.snd

/-- Modelled from the spec: the base procedure invocation line.  The value of
the special `procopts` key is spliced verbatim onto the base line,
unvalidated beyond being a string (`src/saspy/sasproccommons.py` is not in
the provided sources). -/
def baseLine (name : String) (kwargs : List (String × StmtValue)) : String :=
  "PROC " ++ name ++
    (match lookupKw kwargs "procopts" with
      | some (StmtValue.str s) => " " ++ s
      | _ => "") ++ ";"

/-- Character-wise upper-casing of a statement name (the engine's statement
keywords are upper-case). -/
def upcase (s : String) : String := String.mk (s.data.map Char.toUpper)

/-- Modelled from the spec: render one supplied statement into the engine's
statement syntax.  Scalars render as `STATEMENT value;`, sequences as
space-joined tokens, nested mappings as a sub-statement with its own
option tokens. -/
def renderValue (key : String) (v : StmtValue) : String :=
  match v with
  | StmtValue.str s => upcase key ++ " " ++ s ++ ";"
  | StmtValue.seq xs => upcase key ++ " " ++ String.intercalate " " xs ++ ";"
  | StmtValue.map kvs =>
      upcase key ++ " " ++
        String.intercalate " " (kvs.map (fun kv => kv.1 ++ "=" ++ kv.2)) ++ ";"

/-- Modelled from the spec: the deterministic, procedure-appropriate
statement order — attribute/model-bearing statements first, output/ancillary
statements last. -/
def stmtRank (key : String) : Nat :=
  if key = "model" then 0
  else if key ∈ ["out", "output", "code", "score", "store"] then 2
  else 1

/-- Modelled from the spec: the supplied statements (the base-line `procopts`
key excluded) arranged in the deterministic rendering order; ties keep the
caller's ordered-mapping order. -/
def orderedStmts (kwargs : List (String × StmtValue)) : List (String × StmtValue) :=
  let body := kwargs.filter (fun kv => kv.1 ≠ "procopts")
  body.filter (fun kv => stmtRank kv.1 = 0) ++
    body.filter (fun kv => stmtRank kv.1 = 1) ++
    body.filter (fun kv => stmtRank kv.1 = 2)

/-- Modelled from the spec: the rendered statements following the base line,
each on its own line, with the terminator that makes the engine treat the
call as one complete unit of work. -/
def bodyStr (kwargs : List (String × StmtValue)) : String :=
  (orderedStmts kwargs).foldl (fun acc kv => acc ++ "\n" ++ renderValue kv.1 kv.2) ""
    ++ "\nrun;"

/-- Modelled from the spec: the full rendered call string — the base
procedure invocation line first, then the ordered rendered statements and
the terminator. -/
def renderCall (name : String) (kwargs : List (String × StmtValue)) : String :=
  baseLine name kwargs ++ bodyStr kwargs

namespace SASProcCommons

/-- Modelled from the spec: the shared call builder
(`SASProcCommons._run_proc`, absent from the provided sources).  It computes
the supplied key set, fails with `MissingRequiredStatement` naming the
missing keys when the required set is not a subset of the supplied keys,
fails with `UnknownStatement` naming the offending keys when a supplied key
is outside the legal set, and otherwise renders the call string and submits
it.  `Except.ok s` means `Session.submit` was invoked with the rendered
string `s`; `Except.error e` means the validation condition `e` was raised
and `Session.submit` was never invoked. -/
def run_proc (name : String) (required legal : List String)
    (kwargs : List (String × StmtValue)) : Except ProcError String :=
  if (missingKeys required (suppliedKeys kwargs)).isEmpty then
    if (unknownKeys (suppliedKeys kwargs) legal).isEmpty then
      Except.ok (renderCall name kwargs)
    else
      Except.error (ProcError.UnknownStatement (unknownKeys (suppliedKeys kwargs) legal))
  else
    Except.error (ProcError.MissingRequiredStatement (missingKeys required (suppliedKeys kwargs)))

end SASProcCommons

namespace SASstat

/-- `required_set` of `SASstat.hpsplit` (src/saspy/sasstat.py line 65). -/
def hpsplit_required_set : List String := []

/-- `legal_set` of `SASstat.hpsplit` (src/saspy/sasstat.py lines 66-67). -/
def hpsplit_legal_set : List String :=
  ["cls", "code", "grow", "id", "model", "out",
   "partition", "performance", "prune", "rules", "target", "input", "procopts"]

/-- The `hpsplit` method: delegates to the shared builder for `HPSPLIT`. -/
def hpsplit (kwargs : List (String × StmtValue)) : Except ProcError String :=
  SASProcCommons.run_proc "HPSPLIT" hpsplit_required_set hpsplit_legal_set kwargs

/-- `required_set` of `SASstat.reg` (src/saspy/sasstat.py line 85). -/
def reg_required_set : List String := ["model"]

/-- `legal_set` of `SASstat.reg` (src/saspy/sasstat.py lines 86-88). -/
def reg_legal_set : List String :=
  ["add", "by", "code", "id", "var",
   "lsmeans", "model", "random", "repeated",
   "slice", "test", "weight", "out", "procopts"]

/-- The `reg` method: delegates to the shared builder for `REG`. -/
def reg (kwargs : List (String × StmtValue)) : Except ProcError String :=
  SASProcCommons.run_proc "REG" reg_required_set reg_legal_set kwargs

/-- `required_set` of `SASstat.mixed` (src/saspy/sasstat.py line 108). -/
def mixed_required_set : List String := ["model"]

/-- `legal_set` of `SASstat.mixed` (src/saspy/sasstat.py lines 109-111). -/
def mixed_legal_set : List String :=
  ["by", "cls", "code", "contrast", "estimate", "id",
   "lsmeans", "model", "out", "random", "repeated",
   "slice", "weight", "procopts"]

/-- The `mixed` method: delegates to the shared builder for `MIXED`. -/
def mixed (kwargs : List (String × StmtValue)) : Except ProcError String :=
  SASProcCommons.run_proc "MIXED" mixed_required_set mixed_legal_set kwargs

/-- `required_set` of `SASstat.glm` (src/saspy/sasstat.py line 132). -/
def glm_required_set : List String := ["model"]

/-- `legal_set` of `SASstat.glm` (src/saspy/sasstat.py lines 133-135). -/
def glm_legal_set : List String :=
  ["absorb", "by", "cls", "contrast", "estimate", "freq", "id",
   "lsmeans", "manova", "means", "model", "out", "random", "repeated",
   "test", "weight", "procopts"]

/-- The `glm` method: delegates to the shared builder for `GLM`. -/
def glm (kwargs : List (String × StmtValue)) : Except ProcError String :=
  SASProcCommons.run_proc "GLM" glm_required_set glm_legal_set kwargs

/-- `required_set` of `SASstat.logistic` (src/saspy/sasstat.py line 163). -/
def logistic_required_set : List String := ["model"]

/-- `legal_set` of `SASstat.logistic` (src/saspy/sasstat.py lines 164-166);
note it does not contain `model`. -/
def logistic_legal_set : List String :=
  ["by", "cls", "contrast", "effect", "effectplot", "estimate",
   "exact", "freq", "lsmeans", "oddsratio", "out", "roc", "score", "slice",
   "store", "strata", "units", "weight", "procopts"]

/-- The `logistic` method: delegates to the shared builder for `LOGISTIC`. -/
def logistic (kwargs : List (String × StmtValue)) : Except ProcError String :=
  SASProcCommons.run_proc "LOGISTIC" logistic_required_set logistic_legal_set kwargs

/-- `required_set` of `SASstat.tpspline` (src/saspy/sasstat.py line 188). -/
def tpspline_required_set : List String := ["model"]

/-- `legal_set` of `SASstat.tpspline` (src/saspy/sasstat.py line 189). -/
def tpspline_legal_set : List String :=
  ["by", "freq", "id", "model", "output", "score", "procopts"]

/-- The `tpspline` method: delegates to the shared builder for `TPSPLINE`. -/
def tpspline (kwargs : List (String × StmtValue)) : Except ProcError String :=
  SASProcCommons.run_proc "TPSPLINE" tpspline_required_set tpspline_legal_set kwargs

end SASstat

/-- A procedure-catalog entry: the engine procedure name together with the
required and legal statement sets its method passes to the builder. -/
structure ProcedureSpec where
  name : String
  required : List String
  legal : List String
deriving DecidableEq, Repr

/-- The fixed procedure catalog: one entry per procedure method of
`SASstat`, with the exact sets from src/saspy/sasstat.py. -/
def catalog : List ProcedureSpec :=
  [⟨"HPSPLIT", SASstat.hpsplit_required_set, SASstat.hpsplit_legal_set⟩,
   ⟨"REG", SASstat.reg_required_set, SASstat.reg_legal_set⟩,
   ⟨"MIXED", SASstat.mixed_required_set, SASstat.mixed_legal_set⟩,
   ⟨"GLM", SASstat.glm_required_set, SASstat.glm_legal_set⟩,
   ⟨"LOGISTIC", SASstat.logistic_required_set, SASstat.logistic_legal_set⟩,
   ⟨"TPSPLINE", SASstat.tpspline_required_set, SASstat.tpspline_legal_set⟩]

/-- `true` when every name of `required` is also in `legal`. -/
def specSelfConsistent (p : ProcedureSpec) : Bool :=
  p.required.all (fun r => p.legal.contains r)

/-- A substring check: `true` when `pat` occurs contiguously inside `s`. -/
def strHasSub (s pat : String) : Bool :=
  (List.range (s.data.length + 1)).any (fun i => pat.data.isPrefixOf (s.data.drop i))

/-- One key/value entry of a configuration-definition dict in
src/saspy/sascfg.py.  `quoted` records whether the value token is enclosed
in single quotes in the source; `tok` is the token text (with the enclosing
quotes stripped when `quoted` is true). -/
structure CfgEntry where
  dict : String
  key : String
  quoted : Bool
  tok : String
deriving DecidableEq, Repr

/-- `true` when the token is a Python integer literal. -/
def isNumberTok (s : String) : Bool :=
  !s.data.isEmpty && s.data.all Char.isDigit

/-- `true` when the token is a Python identifier (a reference to a variable
defined earlier in the module, such as `cpL` or `cpW`). -/
def isIdentTok (s : String) : Bool :=
  match s.data with
  | [] => false
  | c :: cs => (c.isAlpha || c == '_') && cs.all (fun d => d.isAlphanum || d == '_')

/-- `true` when the token is a bracketed Python list literal. -/
def isListTok (s : String) : Bool :=
  match s.data with
  | [] => false
  | c :: _ => c == '[' && s.data.getLast? == some ']'

/-- A configuration value token is well formed when it is a quoted string
literal, an integer literal, a list literal, or an identifier. -/
def cfgValueTokOk (e : CfgEntry) : Bool :=
  e.quoted || isNumberTok e.tok || isListTok e.tok || isIdentTok e.tok

/-- The key/value entries of the configuration-definition dicts of
src/saspy/sascfg.py (`default`, `ssh`, `iomlinux`, `iomwin`, `winlocal`,
`winiomlinux`, `winiomwin`, `http`), transcribed in source order. -/
def sascfg_entries : List CfgEntry :=
  [⟨"default", "saspath", true, "/opt/sasinside/SASHome/SASFoundation/9.4/bin/sas_u8"⟩,
   ⟨"ssh", "saspath", true, "/opt/sasinside/SASHome/SASFoundation/9.4/bin/sas_u8"⟩,
   ⟨"ssh", "ssh", true, "/usr/bin/ssh"⟩,
   ⟨"ssh", "host", true, "remote.linux.host"⟩,
   ⟨"ssh", "options", false, "[\x22-fullstimer\x22]"⟩,
   ⟨"iomlinux", "java", true, "/usr/bin/java"⟩,
   ⟨"iomlinux", "iomhost", true, "linux.iom.host"⟩,
   ⟨"iomlinux", "iomport", false, "8591"⟩,
   ⟨"iomlinux", "encoding", true, "iso-8859-1"⟩,
   ⟨"iomlinux", "classpath", false, "cpL"⟩,
   ⟨"iomwin", "java", true, "/usr/bin/java"⟩,
   ⟨"iomwin", "iomhost", true, "windows.iom.host"⟩,
   ⟨"iomwin", "iomport", false, "8591"⟩,
   ⟨"iomwin", "encoding", true, "cp1252"⟩,
   ⟨"iomwin", "classpath", false, "cp:"⟩,
   ⟨"winlocal", "saspath", true, "C:\x5cProgram Files\x5cSASHome\x5cSASFoundation\x5c9.4\x5csas.exe"⟩,
   ⟨"winlocal", "java", true, "java"⟩,
   ⟨"winlocal", "omruser", true, "sastpw"⟩,
   ⟨"winlocal", "encoding", true, "cp1252"⟩,
   ⟨"winlocal", "classpath", false, "cpW"⟩,
   ⟨"winiomlinux", "java", true, "java"⟩,
   ⟨"winiomlinux", "iomhost", true, "linux.iom.host"⟩,
   ⟨"winiomlinux", "iomport", false, "8591"⟩,
   ⟨"winiomlinux", "encoding", true, "iso-8859-1"⟩,
   ⟨"winiomlinux", "classpath", false, "cpW"⟩,
   ⟨"winiomwin", "java", true, "java"⟩,
   ⟨"winiomwin", "iomhost", true, "windows.iom.host"⟩,
   ⟨"winiomwin", "iomport", false, "8591"⟩,
   ⟨"winiomwin", "encoding", true, "cp1252"⟩,
   ⟨"winiomwin", "classpath", false, "cpW"⟩,
   ⟨"http", "ip", true, "host.running.compute.service"⟩,
   ⟨"http", "port", false, "80"⟩,
   ⟨"http", "context", true, "OMRcontext1"⟩]

/-- `true` when every configuration value token in the module is well
formed, i.e. the module's configuration definitions can be parsed. -/
def sascfg_wellFormed : Bool :=
  sascfg_entries.all cfgValueTokOk

/-- Claim C1: the catalog self-consistency invariant `required ⊆ legal` is
violated by exactly one procedure method: `LOGISTIC`, whose `required_set`
contains `model` while its `legal_set` does not.  For the other five
catalog entries the invariant holds. -/
theorem catalog_self_consistency_fails_exactly_at_logistic :
    (catalog.filter (fun p => !(specSelfConsistent p))).map ProcedureSpec.name
      = ["LOGISTIC"] := by
  decide

/-- Claim C2: for the LOGISTIC procedure no supplied key set can satisfy
both validation checks, because `model` is required but not legal; hence
every call to the `logistic` method fails validation before submission,
whatever its arguments. -/
theorem logistic_validation_always_fails (kwargs : List (String × StmtValue)) :
    ¬ ((∀ r ∈ SASstat.logistic_required_set, r ∈ suppliedKeys kwargs)
        ∧ (∀ k ∈ suppliedKeys kwargs, k ∈ SASstat.logistic_legal_set))
    ∧ (SASstat.logistic kwargs).isOk = false := by
  constructor
  · rintro ⟨h1, h2⟩
    have hm : "model" ∈ suppliedKeys kwargs :=
      h1 "model" (by simp [SASstat.logistic_required_set])
    have hl : "model" ∈ SASstat.logistic_legal_set := h2 _ hm
    exact absurd hl (by decide)
  · unfold SASstat.logistic SASProcCommons.run_proc
    by_cases h : (suppliedKeys kwargs).contains "model" = true
    · have hmem : "model" ∈ suppliedKeys kwargs := by simpa using h
      have hmiss : missingKeys SASstat.logistic_required_set (suppliedKeys kwargs) = [] := by
        simp [missingKeys, SASstat.logistic_required_set, hmem]
      have hunk : "model" ∈ unknownKeys (suppliedKeys kwargs) SASstat.logistic_legal_set := by
        rw [unknownKeys, List.mem_filter]
        refine ⟨hmem, ?_⟩
        decide
      have hne : (unknownKeys (suppliedKeys kwargs) SASstat.logistic_legal_set).isEmpty
          = false := by
        cases hcase : unknownKeys (suppliedKeys kwargs) SASstat.logistic_legal_set with
        | nil => rw [hcase] at hunk; cases hunk
        | cons a l => rfl
      simp only [hmiss, hne, List.isEmpty_nil, if_true, Bool.false_eq_true, if_false]
      rfl
    · have hmem : "model" ∉ suppliedKeys kwargs := by simpa using h
      have hmiss : missingKeys SASstat.logistic_required_set (suppliedKeys kwargs)
          = ["model"] := by
        simp [missingKeys, SASstat.logistic_required_set, hmem]
      simp only [hmiss]
      rfl

/-- Claim C2 witness: the LOGISTIC method fails even on a call that
supplies exactly the required `model` statement. -/
theorem logistic_validation_always_fails_witness :
    (SASstat.logistic [("model", StmtValue.str "y = x")]).isOk = false :=
  (logistic_validation_always_fails [("model", StmtValue.str "y = x")]).2

/-- Claim C3: whenever the caller omits at least one required statement
name, the builder raises `MissingRequiredStatement` whose list holds
exactly the missing names, and it never reaches `Session.submit` (the
result is an error, never `Except.ok`). -/
theorem missing_required_raises_exact_and_blocks_submit
    (name : String) (required legal : List String)
    (kwargs : List (String × StmtValue))
    (h : ∃ r ∈ required, r ∉ suppliedKeys kwargs) :
    SASProcCommons.run_proc name required legal kwargs
      = Except.error (ProcError.MissingRequiredStatement
          (missingKeys required (suppliedKeys kwargs)))
    ∧ ∀ x, x ∈ missingKeys required (suppliedKeys kwargs)
        ↔ (x ∈ required ∧ x ∉ suppliedKeys kwargs) := by
  have hiff : ∀ x, x ∈ missingKeys required (suppliedKeys kwargs)
      ↔ (x ∈ required ∧ x ∉ suppliedKeys kwargs) := by
    intro x
    simp [missingKeys, List.mem_filter]
  obtain ⟨r, hr, hrn⟩ := h
  have hempty : (missingKeys required (suppliedKeys kwargs)).isEmpty = false := by
    cases hcase : missingKeys required (suppliedKeys kwargs) with
    | nil =>
        have := (hiff r).mpr ⟨hr, hrn⟩
        rw [hcase] at this; cases this
    | cons a l => rfl
  refine ⟨?_, hiff⟩
  unfold SASProcCommons.run_proc
  simp only [hempty, Bool.false_eq_true, if_false]

/-- Claim C3 witness: `REG` called with no keywords raises
`MissingRequiredStatement` naming `model`. -/
theorem missing_required_raises_exact_and_blocks_submit_witness :
    SASProcCommons.run_proc "REG" SASstat.reg_required_set SASstat.reg_legal_set []
      = Except.error (ProcError.MissingRequiredStatement
          (missingKeys SASstat.reg_required_set
            (suppliedKeys ([] : List (String × StmtValue))))) :=
  (missing_required_raises_exact_and_blocks_submit "REG"
    SASstat.reg_required_set SASstat.reg_legal_set [] (by decide)).1

/-- Claim C4 counterexample: `REG` called with only `bogus` supplies a key
outside the legal set, yet the builder raises `MissingRequiredStatement`
naming `model` (the missing-required check runs first), not
`UnknownStatement` naming `bogus`. -/
theorem unknown_statement_counterexample :
    SASstat.reg [("bogus", StmtValue.str "z")]
      = Except.error (ProcError.MissingRequiredStatement ["model"])
    ∧ unknownKeys (suppliedKeys [("bogus", StmtValue.str "z")]) SASstat.reg_legal_set
        = ["bogus"]
    ∧ SASstat.reg [("bogus", StmtValue.str "z")]
        ≠ Except.error (ProcError.UnknownStatement ["bogus"]) := by
  refine ⟨rfl, rfl, fun h => ?_⟩
  rw [show SASstat.reg [("bogus", StmtValue.str "z")]
      = Except.error (ProcError.MissingRequiredStatement ["model"]) from rfl] at h
  injection h with h1
  cases h1

/-- Claim C4 (amended): for every call that supplies all required names and
at least one keyword name outside the legal set, the builder raises
`UnknownStatement` whose list holds exactly the offending names, and it
never reaches `Session.submit`. -/
theorem unknown_statement_raises_exact_when_required_met
    (name : String) (required legal : List String)
    (kwargs : List (String × StmtValue))
    (hreq : ∀ r ∈ required, r ∈ suppliedKeys kwargs)
    (hbad : ∃ k ∈ suppliedKeys kwargs, k ∉ legal) :
    SASProcCommons.run_proc name required legal kwargs
      = Except.error (ProcError.UnknownStatement
          (unknownKeys (suppliedKeys kwargs) legal))
    ∧ ∀ x, x ∈ unknownKeys (suppliedKeys kwargs) legal
        ↔ (x ∈ suppliedKeys kwargs ∧ x ∉ legal) := by
  have hiff : ∀ x, x ∈ unknownKeys (suppliedKeys kwargs) legal
      ↔ (x ∈ suppliedKeys kwargs ∧ x ∉ legal) := by
    intro x
    simp [unknownKeys, List.mem_filter]
  have hmiss : missingKeys required (suppliedKeys kwargs) = [] := by
    rw [missingKeys, List.filter_eq_nil_iff]
    intro a ha
    simpa using hreq a ha
  obtain ⟨k, hk, hkn⟩ := hbad
  have hempty : (unknownKeys (suppliedKeys kwargs) legal).isEmpty = false := by
    cases hcase : unknownKeys (suppliedKeys kwargs) legal with
    | nil =>
        have := (hiff k).mpr ⟨hk, hkn⟩
        rw [hcase] at this; cases this
    | cons a l => rfl
  refine ⟨?_, hiff⟩
  unfold SASProcCommons.run_proc
  simp only [hmiss, hempty, List.isEmpty_nil, if_true, Bool.false_eq_true, if_false]

/-- Claim C4 (amended) witness: `REG` with `model` supplied and the extra
`bogus` keyword raises `UnknownStatement` naming exactly `bogus`. -/
theorem unknown_statement_raises_exact_when_required_met_witness :
    SASProcCommons.run_proc "REG" SASstat.reg_required_set SASstat.reg_legal_set
        [("model", StmtValue.str "y=x1"), ("bogus", StmtValue.str "z")]
      = Except.error (ProcError.UnknownStatement
          (unknownKeys
            (suppliedKeys [("model", StmtValue.str "y=x1"), ("bogus", StmtValue.str "z")])
            SASstat.reg_legal_set)) :=
  (unknown_statement_raises_exact_when_required_met "REG"
    SASstat.reg_required_set SASstat.reg_legal_set
    [("model", StmtValue.str "y=x1"), ("bogus", StmtValue.str "z")]
    (by decide) (by decide)).1

/-- Claim C5: a call whose supplied keys cover the required set and stay
inside the legal set raises no validation condition: the builder reaches
the rendering step and submits the rendered call string. -/
theorem valid_request_reaches_rendering
    (name : String) (required legal : List String)
    (kwargs : List (String × StmtValue))
    (hreq : ∀ r ∈ required, r ∈ suppliedKeys kwargs)
    (hleg : ∀ k ∈ suppliedKeys kwargs, k ∈ legal) :
    SASProcCommons.run_proc name required legal kwargs
      = Except.ok (renderCall name kwargs) := by
  have hmiss : missingKeys required (suppliedKeys kwargs) = [] := by
    rw [missingKeys, List.filter_eq_nil_iff]
    intro a ha
    simpa using hreq a ha
  have hunk : unknownKeys (suppliedKeys kwargs) legal = [] := by
    rw [unknownKeys, List.filter_eq_nil_iff]
    intro a ha
    simpa using hleg a ha
  unfold SASProcCommons.run_proc
  simp only [hmiss, hunk, List.isEmpty_nil, if_true]

/-- Claim C5 witness: `REG` called with exactly the required `model`
statement validates and renders. -/
theorem valid_request_reaches_rendering_witness :
    SASProcCommons.run_proc "REG" SASstat.reg_required_set SASstat.reg_legal_set
        [("model", StmtValue.str "y = x1 x2")]
      = Except.ok (renderCall "REG" [("model", StmtValue.str "y = x1 x2")]) :=
  valid_request_reaches_rendering "REG" SASstat.reg_required_set SASstat.reg_legal_set
    [("model", StmtValue.str "y = x1 x2")] (by decide) (by decide)

/-- Claim C6: the `reg` method has required set `{model}` and its legal set
contains `model`, `by`, `out` and `procopts`; calling it with only
`model = "y = x1 x2"` submits a call string containing the statement
`MODEL y = x1 x2;`. -/
theorem reg_model_scenario_renders_and_submits :
    SASstat.reg_required_set = ["model"]
    ∧ (["model", "by", "out", "procopts"].all
        (fun k => SASstat.reg_legal_set.contains k)) = true
    ∧ SASstat.reg [("model", StmtValue.str "y = x1 x2")]
        = Except.ok (renderCall "REG" [("model", StmtValue.str "y = x1 x2")])
    ∧ strHasSub (renderCall "REG" [("model", StmtValue.str "y = x1 x2")])
        "MODEL y = x1 x2;" = true := by
  refine ⟨rfl, rfl, rfl, by decide⟩

/-- Claim C7: every catalog entry's legal set contains the generic
`procopts` key. -/
theorem catalog_legal_always_includes_procopts :
    catalog.all (fun p => p.legal.contains "procopts") = true := by
  decide

/-- Claim C8: when the call supplies `procopts` as a string and validation
succeeds, the submitted call string starts with the base procedure line
carrying the `procopts` value verbatim, independently of the procedure's
required and legal sets. -/
theorem procopts_spliced_verbatim_onto_base_line
    (name v : String) (required legal : List String)
    (kwargs : List (String × StmtValue)) (s : String)
    (hlook : lookupKw kwargs "procopts" = some (StmtValue.str v))
    (hok : SASProcCommons.run_proc name required legal kwargs = Except.ok s) :
    s = "PROC " ++ name ++ " " ++ v ++ ";" ++ bodyStr kwargs := by
  unfold SASProcCommons.run_proc at hok
  split at hok
  · split at hok
    · injection hok with hs
      rw [← hs]
      simp [renderCall, baseLine, hlook, String.append_assoc]
    · cases hok
  · cases hok

/-- Claim C8 witness: `REG` with `procopts = "noprint"` and the required
`model` statement submits a call string whose base line is
`PROC REG noprint;`. -/
theorem procopts_spliced_verbatim_onto_base_line_witness :
    ("PROC REG noprint;\nMODEL y = x1;\nrun;" : String)
      = "PROC " ++ "REG" ++ " " ++ "noprint" ++ ";"
          ++ bodyStr [("procopts", StmtValue.str "noprint"),
                      ("model", StmtValue.str "y = x1")] :=
  procopts_spliced_verbatim_onto_base_line "REG" "noprint"
    SASstat.reg_required_set SASstat.reg_legal_set
    [("procopts", StmtValue.str "noprint"), ("model", StmtValue.str "y = x1")]
    "PROC REG noprint;\nMODEL y = x1;\nrun;" (by rfl) (by rfl)

/-- Claim C9: rendering is deterministic — two calls with the same
procedure name and the same ordered keyword mapping render the identical
call string, and the builder returns the identical outcome. -/
theorem rendering_is_deterministic
    (name : String) (required legal : List String)
    (kw1 kw2 : List (String × StmtValue)) (h : kw1 = kw2) :
    renderCall name kw1 = renderCall name kw2
    ∧ SASProcCommons.run_proc name required legal kw1
        = SASProcCommons.run_proc name required legal kw2 := by
  subst h
  exact ⟨rfl, rfl⟩

/-- Claim C9 witness: determinism applied at the `REG` scenario request. -/
theorem rendering_is_deterministic_witness :
    renderCall "REG" [("model", StmtValue.str "y = x1 x2")]
      = renderCall "REG" [("model", StmtValue.str "y = x1 x2")] :=
  (rendering_is_deterministic "REG" SASstat.reg_required_set SASstat.reg_legal_set
    [("model", StmtValue.str "y = x1 x2")] [("model", StmtValue.str "y = x1 x2")] rfl).1

/-- Claim C10: the `iomwin` configuration definition's `classpath` entry is
the only configuration value token in src/saspy/sascfg.py that is not well
formed (its token `cp:` is neither a quoted string, a number, a list, nor
an identifier), so the configuration module as written cannot be parsed. -/
theorem sascfg_iomwin_classpath_malformed :
    (sascfg_entries.filter (fun e => !(cfgValueTokOk e))).map
        (fun e => (e.dict, e.key, e.tok))
      = [("iomwin", "classpath", "cp:")]
    ∧ sascfg_wellFormed = false := by
  refine ⟨by decide, by decide⟩
